import Mathlib

/-!
Verification of the Hack-Nova real-time monitoring subsystem.

Shallow embedding of `backend/app/agents/realtime_monitor.py` and
`backend/app/api/monitoring.py`.  Timestamps, frame rates and durations are
modelled as rationals (Python floats used only for arithmetic and order
comparisons here), frame indices as naturals, machine exceptions as explicit
error branches, and the external collaborators (image analyzer, OSHA mapper,
clip writer, pause and stop requests) as parameters of an environment record.
-/

/-- Python `int(q)`: truncation toward zero. -/
def pyInt (q : ℚ) : ℤ := if 0 ≤ q then ⌊q⌋ else ⌈q⌉

/-- Python `str.lower()` on the strings this system handles (character-wise
case folding), written over the character list so that it reduces
structurally. -/
def pyLower (s : String) : String := ⟨s.data.map Char.toLower⟩

/-- One observation returned by the image analyzer: the code reads the
`hazard_type`, `location` and `observation` keys with `.get` defaults, so each
field is optional here and the default is applied at use sites, as in the
source. -/
structure Obs where
  hazard_type : Option String
  location : Option String
  observation : Option String
deriving DecidableEq, Repr

/-- One mapped violation returned by `OSHAMapper.map_violations`; the
orchestrator reads these keys with `.get`. -/
structure MappedViolation where
  severity : Option String
  osha_code : Option String
  osha_title : Option String
  plain_english : Option String
deriving DecidableEq, Repr

/-- The `ViolationAlert` dataclass (fields used by the monitoring logic;
the wall-clock `detected_at` and the filesystem `frame_path` bookkeeping
fields are not modelled). -/
structure ViolationAlert where
  violation_id : String
  session_id : String
  timestamp : ℚ
  frame_number : ℕ
  hazard_type : String
  severity : String
  observation : String
  location : String
  osha_code : Option String
  osha_title : Option String
  plain_english : Option String
  video_clip_path : Option String
deriving DecidableEq, Repr

/-- First-match lookup in an association list, modelling `dict.get`. -/
def getKey : List ((String × String) × ℚ) → (String × String) → Option ℚ
  | [], _ => none
  | (k, v) :: rest, key => if k = key then some v else getKey rest key

/-- Replace-or-append update of an association list, modelling
`dict[key] = value`. -/
def setKey : List ((String × String) × ℚ) → (String × String) → ℚ →
    List ((String × String) × ℚ)
  | [], key, v => [(key, v)]
  | (k, v') :: rest, key, v =>
    if k = key then (key, v) :: rest else (k, v') :: setKey rest key v

/-- The `ViolationDeduplicator`: cooldown plus the `last_seen` ledger mapping
a case-folded `(hazard_type, location)` key to the last accepted timestamp. -/
structure ViolationDeduplicator where
  cooldown_seconds : ℚ
  last_seen : List ((String × String) × ℚ)
deriving DecidableEq, Repr

/-- `ViolationDeduplicator.should_alert`: the Python method mutates the
ledger and returns a bool; here it returns the bool together with the updated
deduplicator. -/
def should_alert (d : ViolationDeduplicator) (hazard_type location : String)
    (current_timestamp : ℚ) : Bool × ViolationDeduplicator :=
  let key := (pyLower hazard_type, pyLower location)
  match getKey d.last_seen key with
  | none =>
    (true, { d with last_seen := setKey d.last_seen key current_timestamp })
  | some last_time =>
    if d.cooldown_seconds ≤ current_timestamp - last_time then
      (true, { d with last_seen := setKey d.last_seen key current_timestamp })
    else
      (false, d)

/-- `ViolationDeduplicator.reset` clears the ledger. -/
def ViolationDeduplicator.reset (d : ViolationDeduplicator) : ViolationDeduplicator :=
  { d with last_seen := [] }

/-! ## Broadcast registry (`ConnectionManager` in `app/api/monitoring.py`) -/

/-- Observer handles (WebSocket objects) are identified by naturals. -/
abbrev Conn := ℕ

/-- The `active_connections` dict: session id to list of connected observers,
modelled as a first-match association list. -/
abbrev Registry := List (String × List Conn)

/-- First-match lookup, modelling `dict.__getitem__` / `in`. -/
def lookupR : Registry → String → Option (List Conn)
  | [], _ => none
  | (k, v) :: rest, sid => if k = sid then some v else lookupR rest sid

/-- Replace the value stored at the first matching key (the Python code
mutates the stored list in place). -/
def updateR : Registry → String → List Conn → Registry
  | [], _, _ => []
  | (k, v) :: rest, sid, c =>
    if k = sid then (k, c) :: rest else (k, v) :: updateR rest sid c

/-- Delete the first matching key, modelling `del dict[key]`. -/
def removeR : Registry → String → Registry
  | [], _ => []
  | (k, v) :: rest, sid => if k = sid then rest else (k, v) :: removeR rest sid

/-- The subscriber list the registry holds for a session (empty when the
session has no entry). -/
def subscribers (r : Registry) (sid : String) : List Conn :=
  (lookupR r sid).getD []

/-- `ConnectionManager.disconnect`: a missing session id returns silently;
for a present session the observer is removed with `list.remove`, which
raises `ValueError` when the observer is not in the list; an entry left empty
is deleted.  Exceptions are modelled with `Except`. -/
def ConnectionManager.disconnect (r : Registry) (ws : Conn) (sid : String) :
    Except String Registry :=
  match lookupR r sid with
  | none => .ok r
  | some conns =>
    if ws ∈ conns then
      let conns' := conns.erase ws
      .ok (if conns' = [] then removeR r sid else updateR r sid conns')
    else
      .error "ValueError: list.remove(x): x not in list"

/-- The clean-up loop at the end of `ConnectionManager.broadcast`: disconnect
each dead observer in order, propagating any exception. -/
def dropDead : List Conn → String → Registry → Except String Registry
  | [], _, r => .ok r
  | c :: rest, sid, r =>
    match ConnectionManager.disconnect r c sid with
    | .error e => .error e
    | .ok r' => dropDead rest sid r'

/-- `ConnectionManager.broadcast`: send the message to every observer of the
session in order; a failing send is caught and the observer is recorded as
dead; after the delivery iteration every dead observer is disconnected.  The
success or failure of `send_json` for an observer is the environment
parameter `ok`; the returned list collects the successful deliveries. -/
def ConnectionManager.broadcast (r : Registry) (sid : String)
    (ok : Conn → Bool) (message : String) :
    Except String (Registry × List (Conn × String)) :=
  match lookupR r sid with
  | none => .ok (r, [])
  | some conns =>
    let delivered := (conns.filter ok).map fun c => (c, message)
    let dead := conns.filter fun c => !(ok c)
    match dropDead dead sid r with
    | .error e => .error e
    | .ok r' => .ok (r', delivered)

/-! ## The monitoring orchestrator (`RealtimeMonitor` in `realtime_monitor.py`) -/

/-- Outcome of one external call: the Python call either raises or returns a
value (`image_analyzer.analyze_image`, `osha_mapper.map_violations`). -/
inductive CallOutcome (α : Type) where
  | raise
  | ok (val : α)
deriving DecidableEq, Repr

/-- The environment a monitoring run executes in: the opened source's
properties, the session parameters, the behaviour of the two external
collaborators and of clip extraction, and the external pause/stop requests.
`stopBefore n = true` means some pause or stop request cleared `is_running`
before the loop's while-check preceding the read of frame `n` (the flag is
checked cooperatively once per iteration). -/
structure Env where
  opened : Bool
  fps : ℚ
  total_frames : ℕ
  analysis_interval : ℚ
  session_id : String
  analyze : ℕ → CallOutcome (List Obs)
  mapViolations : List Obs → CallOutcome (List MappedViolation)
  clipResult : ℕ → Option String
  stopBefore : ℕ → Bool

/-- `frames_per_analysis = int(fps * analysis_interval)` — the sampling
stride computed by `start_monitoring` (line 123 of the source). -/
def frames_per_analysis (fps analysis_interval : ℚ) : ℤ :=
  pyInt (fps * analysis_interval)

/-- The mutable state of the frame loop: frame counter, counters, the
deduplicator, the alerts passed to the violation callback in order, and the
progress-callback invocations `(current_timestamp, duration, frame_number)`
in order. -/
structure LoopState where
  frame_number : ℕ
  analysis_count : ℕ
  violations_detected : ℕ
  dedup : ViolationDeduplicator
  alerts : List ViolationAlert
  progress : List (ℚ × ℚ × ℕ)
deriving DecidableEq, Repr

/-- Loop state at entry: counters at zero and a fresh deduplicator with the
hard-coded 300-second cooldown (source line 109). -/
def initState : LoopState :=
  { frame_number := 0, analysis_count := 0, violations_detected := 0,
    dedup := { cooldown_seconds := 300, last_seen := [] },
    alerts := [], progress := [] }

/-- The `for idx, violation in enumerate(violations)` body (source lines
167–209): pair each mapped violation with `observations[idx]`; an index past
the end of `observations` raises `IndexError`, which the per-frame handler
catches, so the partial state is kept and the remaining pairs are skipped. -/
def processPairs (env : Env) (ts : ℚ) (observations : List Obs) :
    List MappedViolation → ℕ → LoopState → LoopState
  | [], _, st => st
  | violation :: rest, idx, st =>
    match observations[idx]? with
    | none => st
    | some obs =>
      let hazard_type := obs.hazard_type.getD "Unknown"
      let location := obs.location.getD "Unknown location"
      let fire := should_alert st.dedup hazard_type location ts
      if fire.1 then
        let vd := st.violations_detected + 1
        let alert : ViolationAlert :=
          { violation_id := env.session_id ++ "_" ++ toString vd,
            session_id := env.session_id,
            timestamp := ts,
            frame_number := st.frame_number,
            hazard_type := hazard_type,
            severity := violation.severity.getD "MEDIUM",
            observation := obs.observation.getD "",
            location := location,
            osha_code := violation.osha_code,
            osha_title := violation.osha_title,
            plain_english := violation.plain_english,
            video_clip_path := env.clipResult vd }
        processPairs env ts observations rest (idx + 1)
          { st with dedup := fire.2, violations_detected := vd,
                    alerts := st.alerts ++ [alert] }
      else
        processPairs env ts observations rest (idx + 1)
          { st with dedup := fire.2 }

/-- The per-sampled-frame analysis block (source lines 157–212): call the
analyzer, skip an empty result, call the mapper on the whole batch, then run
the pairing loop.  A raise from either collaborator (or the `IndexError`
inside the pairing loop) is caught by the frame's `except` handler, so the
frame never fails the session. -/
def analyzeSampledFrame (env : Env) (ts : ℚ) (st : LoopState) : LoopState :=
  match env.analyze st.frame_number with
  | .raise => st
  | .ok observations =>
    if observations.isEmpty then st
    else
      match env.mapViolations observations with
      | .raise => st
      | .ok violations => processPairs env ts observations violations 0 st

/-- Why the frame loop stopped. -/
inductive ExitReason where
  | endOfVideo
  | externalStop
  | strideZero
deriving DecidableEq, Repr

/-- The body of one loop iteration after a successful read (source lines
143–217): compute the video timestamp, and when
`frame_number % frames_per_analysis == 0` record the progress-callback
invocation and run the analysis block; in every case increment
`frame_number`, so every frame read is consumed whether or not it was
sampled. -/
def stepState (env : Env) (fpa : ℤ) (st : LoopState) : LoopState :=
  let ts : ℚ := (st.frame_number : ℚ) / env.fps
  let st' :=
    if (st.frame_number : ℤ) % fpa = 0 then
      analyzeSampledFrame env ts
        { st with analysis_count := st.analysis_count + 1,
                  progress := st.progress ++
                    [(ts, (env.total_frames : ℚ) / env.fps, st.frame_number)] }
    else st
  { st' with frame_number := st'.frame_number + 1 }

/-- The `while self.is_running and cap.isOpened()` loop of
`start_monitoring` (source lines 136–217), by recursion on the frames the
capture can still deliver.  Each iteration: the cleared-flag check, the
read (which fails at end of video), then the sampling test — a
`ZeroDivisionError` when the stride is zero, not caught by the per-frame
handler — and the rest of the body via `stepState`. -/
def monitorLoop (env : Env) (fpa : ℤ) : ℕ → LoopState → LoopState × ExitReason
  | 0, st =>
    if env.stopBefore st.frame_number then (st, .externalStop)
    else (st, .endOfVideo)
  | remaining + 1, st =>
    if env.stopBefore st.frame_number then (st, .externalStop)
    else if fpa = 0 then (st, .strideZero)
    else monitorLoop env fpa remaining (stepState env fpa st)

/-- How a `start_monitoring` call ended. -/
inductive MonitorOutcome where
  /-- `cap.isOpened()` was false: `ValueError` raised before the `try`. -/
  | openFailed
  /-- `fps` was zero: `ZeroDivisionError` at `duration = total_frames / fps`
  (source line 118), raised after the source was opened but before the
  `try`/`finally`. -/
  | zeroFps
  /-- `ZeroDivisionError` from `frame_number % 0` inside the loop; the
  `finally` ran, then the exception propagated. -/
  | strideZero
  /-- The video ended normally. -/
  | completed
  /-- A pause or stop request cleared the running flag and the loop exited. -/
  | stoppedExternally
deriving DecidableEq, Repr

/-- Result of a `start_monitoring` call: whether `cap.release()` ran before
the call returned or raised, how it ended, and the final loop state. -/
structure MonitorResult where
  released : Bool
  outcome : MonitorOutcome
  final : LoopState
deriving DecidableEq, Repr

/-- Map the loop's exit reason to the call outcome. -/
def exitOutcome : ExitReason → MonitorOutcome
  | .endOfVideo => .completed
  | .externalStop => .stoppedExternally
  | .strideZero => .strideZero

/-- `RealtimeMonitor.start_monitoring` (source lines 89–222): open the
source (raise without release when it cannot be opened), compute duration
(raise without release when `fps` is zero), compute the stride, then run the
frame loop inside `try`/`finally`, whose `finally` releases the capture on
every path out of the loop. -/
def start_monitoring (env : Env) : MonitorResult :=
  if env.opened = false then
    { released := false, outcome := .openFailed, final := initState }
  else if env.fps = 0 then
    { released := false, outcome := .zeroFps, final := initState }
  else
    let fpa := frames_per_analysis env.fps env.analysis_interval
    let res := monitorLoop env fpa env.total_frames initState
    { released := true, outcome := exitOutcome res.2, final := res.1 }

/-- The monitor object's own state: the shared `is_running` flag and the
current session id (source lines 83–87). -/
structure RealtimeMonitor where
  is_running : Bool
  current_session_id : Option String
deriving DecidableEq, Repr

/-- `RealtimeMonitor.pause` (source lines 279–282): clears the flag. -/
def RealtimeMonitor.pause (m : RealtimeMonitor) : RealtimeMonitor :=
  { m with is_running := false }

/-- `RealtimeMonitor.resume` (source lines 284–287): sets the flag. -/
def RealtimeMonitor.resume (m : RealtimeMonitor) : RealtimeMonitor :=
  { m with is_running := true }

/-- `RealtimeMonitor.stop` (source lines 289–292): clears the flag. -/
def RealtimeMonitor.stop (m : RealtimeMonitor) : RealtimeMonitor :=
  { m with is_running := false }

/-- What a successful `_extract_clip` call did: the computed start time in
seconds, the frame index the reader was positioned at, and the number of
frames written to the clip. -/
structure ClipWritten where
  start_time : ℚ
  start_frame : ℕ
  frames_written : ℕ
deriving DecidableEq, Repr

/-- `RealtimeMonitor._extract_clip` (source lines 224–277): compute
`start_time = max(0, timestamp - duration_before)`, seek to
`int(start_time * fps)`, and write `int((duration_before + duration_after) *
fps)` frames, stopping early when the source runs out; the whole body is
wrapped in `try`/`except` returning `None` on any failure.  `io_fails`
abstracts whether anything in the body raises; `source_frames` is the length
of the source. -/
def extract_clip (fps : ℚ) (source_frames : ℕ) (io_fails : Bool)
    (timestamp duration_before duration_after : ℚ) : Option ClipWritten :=
  if io_fails then none
  else
    let start_time := max 0 (timestamp - duration_before)
    let duration := duration_before + duration_after
    let start_frame := (pyInt (start_time * fps)).toNat
    let frames_to_write := (pyInt (duration * fps)).toNat
    some { start_time := start_time,
           start_frame := start_frame,
           frames_written := min frames_to_write (source_frames - start_frame) }

/-- Environment whose session received a stop (or pause) request before
frame 0: the running flag is already cleared at the first while-check. -/
def envHalted : Env :=
  { opened := true, fps := 2, total_frames := 10, analysis_interval := 1,
    session_id := "halted", analyze := fun _ => .ok [],
    mapViolations := fun _ => .ok [], clipResult := fun _ => none,
    stopBefore := fun _ => true }

/-- Environment with an opened source whose container reports a frame rate
of zero (as OpenCV does for still images and some broken containers). -/
def envZeroFps : Env :=
  { opened := true, fps := 0, total_frames := 120, analysis_interval := 3/2,
    session_id := "zero", analyze := fun _ => .ok [],
    mapViolations := fun _ => .ok [], clipResult := fun _ => none,
    stopBefore := fun _ => false }

/-- Environment for the C4 witness: a 2-frame source at 1 fps that runs to
completion. -/
def envC4w : Env :=
  { opened := true, fps := 1, total_frames := 2, analysis_interval := 1,
    session_id := "c4", analyze := fun _ => .ok [],
    mapViolations := fun _ => .ok [], clipResult := fun _ => none,
    stopBefore := fun _ => false }

/-- Environment for the C2 witness: a 4-frame source at 2 fps with a
1-second interval (stride 2), never paused. -/
def envC2w : Env :=
  { opened := true, fps := 2, total_frames := 4, analysis_interval := 1,
    session_id := "c2", analyze := fun _ => .ok [],
    mapViolations := fun _ => .ok [], clipResult := fun _ => none,
    stopBefore := fun _ => false }

/-- Environment for the C1 run: a 4-frame source at 2 fps; a pause request
arrives while frame 0 is in flight, so the flag is observed cleared at the
while-check before frame 1; nothing ever sets `stopBefore` back (a later
resume call only flips the monitor's flag — there is no loop left to
observe it). -/
def envPause : Env :=
  { opened := true, fps := 2, total_frames := 4, analysis_interval := 1,
    session_id := "sess", analyze := fun _ => .ok [],
    mapViolations := fun _ => .ok [], clipResult := fun _ => none,
    stopBefore := fun n => decide (1 ≤ n) }

/-- Observation fixture: a fall hazard at the roof edge. -/
def obsA : Obs :=
  { hazard_type := some "Fall Hazard", location := some "Roof Edge",
    observation := some "worker near unprotected edge" }

/-- Observation fixture: missing PPE at the gate. -/
def obsB : Obs :=
  { hazard_type := some "PPE", location := some "Gate",
    observation := some "worker without helmet" }

/-- Mapper fixture: one mapped violation. -/
def vioA : MappedViolation :=
  { severity := some "HIGH", osha_code := some "1926.501(b)(1)",
    osha_title := some "Fall protection", plain_english := some "Guard the edge" }

/-- Environment whose analyzer reports two observations on frame 0 while the
mapper returns a single violation: a protocol misalignment. -/
def envC3 : Env :=
  { opened := true, fps := 1, total_frames := 1, analysis_interval := 1,
    session_id := "c3", analyze := fun _ => .ok [obsA, obsB],
    mapViolations := fun _ => .ok [vioA], clipResult := fun _ => none,
    stopBefore := fun _ => false }

/-- Environment for the C6 witness: a one-frame source at 1 fps with no
observations. -/
def envC6w : Env :=
  { opened := true, fps := 1, total_frames := 1, analysis_interval := 1,
    session_id := "c6w", analyze := fun _ => .ok [],
    mapViolations := fun _ => .ok [], clipResult := fun _ => none,
    stopBefore := fun _ => false }

/-- Environment whose analyzer reports two distinct observations on frame 0,
both mapped: two alerts are accepted on the same frame. -/
def envC6 : Env :=
  { opened := true, fps := 1, total_frames := 1, analysis_interval := 1,
    session_id := "c6", analyze := fun _ => .ok [obsA, obsB],
    mapViolations := fun _ => .ok [vioA, vioA], clipResult := fun _ => none,
    stopBefore := fun _ => false }

/-! ## Lemmas and claim theorems -/

/-- C5. For a deduplicator with cooldown 300: a first call for a case-folded
(category, location) key records its timestamp and returns true; a later call
for the same key returns true and updates the recorded timestamp exactly when
at least 300 seconds have elapsed since the recorded timestamp, and otherwise
returns false leaving the ledger unchanged. -/
theorem C5_should_alert_cooldown (d : ViolationDeduplicator)
    (h l : String) (t : ℚ) (hc : d.cooldown_seconds = 300) :
    (getKey d.last_seen (pyLower h, pyLower l) = none →
      should_alert d h l t =
        (true, { d with last_seen := setKey d.last_seen (pyLower h, pyLower l) t })) ∧
    (∀ last, getKey d.last_seen (pyLower h, pyLower l) = some last →
      (300 ≤ t - last →
        should_alert d h l t =
          (true, { d with last_seen := setKey d.last_seen (pyLower h, pyLower l) t })) ∧
      (t - last < 300 →
        should_alert d h l t = (false, d))) := by
  refine ⟨fun hnone => ?_, fun last hlast => ⟨fun hge => ?_, fun hlt => ?_⟩⟩
  · simp [should_alert, hnone]
  · simp [should_alert, hlast, hc, hge]
  · simp [should_alert, hlast, hc, not_le.mpr hlt]

/-- Witness for C5: with an entry recorded at time 0, a repeat of the same
key (up to case) at 250 seconds is suppressed and leaves the ledger
unchanged, while a repeat at 301 seconds is accepted and re-records. -/
theorem C5_should_alert_cooldown_witness :
    should_alert ⟨300, [(("ppe", "deck"), 0)]⟩ "PPE" "Deck" 250 =
      (false, ⟨300, [(("ppe", "deck"), 0)]⟩) ∧
    should_alert ⟨300, [(("ppe", "deck"), 0)]⟩ "PPE" "Deck" 301 =
      (true, ⟨300, [(("ppe", "deck"), 301)]⟩) := by
  constructor
  · exact ((C5_should_alert_cooldown ⟨300, [(("ppe", "deck"), 0)]⟩ "PPE" "Deck" 250
      rfl).2 0 (by decide)).2 (by norm_num)
  · exact ((C5_should_alert_cooldown ⟨300, [(("ppe", "deck"), 0)]⟩ "PPE" "Deck" 301
      rfl).2 0 (by decide)).1 (by norm_num)

/-- C10. Disconnecting an observer that is not subscribed to a session that
does have a registry entry raises (Python `list.remove` on a missing
element), while disconnecting from a session with no registry entry at all
returns silently and leaves the registry unchanged. -/
theorem C10_disconnect_missing (r : Registry) (ws : Conn) (sid : String) :
    (∀ conns, lookupR r sid = some conns → ws ∉ conns →
      ConnectionManager.disconnect r ws sid =
        .error "ValueError: list.remove(x): x not in list") ∧
    (lookupR r sid = none → ConnectionManager.disconnect r ws sid = .ok r) := by
  constructor
  · intro conns hc hw
    simp [ConnectionManager.disconnect, hc, hw]
  · intro hn
    simp [ConnectionManager.disconnect, hn]

/-- Witness for C10: in a registry where session "s" has the single
subscriber 5, disconnecting observer 7 from "s" raises, and disconnecting 7
from the unknown session "t" is a silent no-op. -/
theorem C10_disconnect_missing_witness :
    ConnectionManager.disconnect [("s", [5])] 7 "s" =
      .error "ValueError: list.remove(x): x not in list" ∧
    ConnectionManager.disconnect [("s", [5])] 7 "t" = .ok [("s", [5])] :=
  ⟨(C10_disconnect_missing [("s", [5])] 7 "s").1 [5] (by decide) (by decide),
   (C10_disconnect_missing [("s", [5])] 7 "t").2 (by decide)⟩

/-- A session id that is not among the registry's keys has no entry. -/
lemma lookupR_none_of_not_mem (r : Registry) (sid : String)
    (h : sid ∉ r.map Prod.fst) : lookupR r sid = none := by
  induction r with
  | nil => rfl
  | cons p rest ih =>
    obtain ⟨k, v⟩ := p
    simp only [List.map_cons, List.mem_cons, not_or] at h
    have hk : k ≠ sid := fun hk => h.1 hk.symm
    simp [lookupR, hk, ih h.2]

/-- With no duplicate keys, deleting a session's entry removes it from the
registry's view. -/
lemma lookupR_removeR (r : Registry) (sid : String)
    (hnd : (r.map Prod.fst).Nodup) : lookupR (removeR r sid) sid = none := by
  induction r with
  | nil => rfl
  | cons p rest ih =>
    obtain ⟨k, v⟩ := p
    simp only [List.map_cons, List.nodup_cons] at hnd
    by_cases hk : k = sid
    · subst hk
      simp [removeR, lookupR_none_of_not_mem rest k hnd.1]
    · simp [removeR, hk, lookupR, ih hnd.2]

/-- Updating an existing entry is visible to a subsequent lookup. -/
lemma lookupR_updateR (r : Registry) (sid : String) (c v0 : List Conn)
    (h : lookupR r sid = some v0) :
    lookupR (updateR r sid c) sid = some c := by
  induction r with
  | nil => simp [lookupR] at h
  | cons p rest ih =>
    obtain ⟨k, v⟩ := p
    by_cases hk : k = sid
    · simp [updateR, lookupR, hk]
    · simp only [lookupR, hk, if_false] at h
      simp [updateR, lookupR, hk, ih h]

/-- Updating an entry's value preserves the registry's key sequence. -/
lemma map_fst_updateR (r : Registry) (sid : String) (c : List Conn) :
    (updateR r sid c).map Prod.fst = r.map Prod.fst := by
  induction r with
  | nil => rfl
  | cons p rest ih =>
    obtain ⟨k, v⟩ := p
    by_cases hk : k = sid
    · simp [updateR, hk]
    · simp [updateR, hk, ih]

/-- Core of the broadcast clean-up: disconnecting, one at a time, every
observer of a session whose send failed succeeds without raising and leaves
exactly the successful observers subscribed.  `pre` is the prefix of
already-delivered (successful) observers still in the stored list. -/
lemma dropDead_spec (sid : String) (ok : Conn → Bool) :
    ∀ (c pre : List Conn) (r : Registry),
      (r.map Prod.fst).Nodup →
      lookupR r sid = some (pre ++ c) →
      (∀ y ∈ pre, ok y = true) →
      ∃ r', dropDead (c.filter fun x => !(ok x)) sid r = .ok r' ∧
        subscribers r' sid = (pre ++ c).filter ok := by
  intro c
  induction c with
  | nil =>
    intro pre r hnd hl hp
    refine ⟨r, rfl, ?_⟩
    simp only [List.append_nil] at hl ⊢
    simp [subscribers, hl, List.filter_eq_self.mpr hp]
  | cons x xs ih =>
    intro pre r hnd hl hp
    by_cases hx : ok x = true
    · have hl' : lookupR r sid = some ((pre ++ [x]) ++ xs) := by
        simpa using hl
      have hp' : ∀ y ∈ pre ++ [x], ok y = true := by
        intro y hy
        rcases List.mem_append.mp hy with hy | hy
        · exact hp y hy
        · simpa [List.mem_singleton.mp hy]
      obtain ⟨r', hdrop, hsub⟩ := ih (pre ++ [x]) r hnd hl' hp'
      refine ⟨r', ?_, ?_⟩
      · simpa [List.filter_cons, hx] using hdrop
      · simpa using hsub
    · have hx' : ok x = false := by
        simpa using hx
      have hxpre : x ∉ pre := fun hmem => by
        simp [hp x hmem] at hx'
      have hmem : x ∈ pre ++ x :: xs := by simp
      have herase : (pre ++ x :: xs).erase x = pre ++ xs := by
        rw [List.erase_append_right _ hxpre, List.erase_cons_head]
      by_cases h0 : pre ++ xs = []
      · obtain ⟨hpre, hxs⟩ := List.append_eq_nil.mp h0
        subst hpre; subst hxs
        refine ⟨removeR r sid, ?_, ?_⟩
        · simp [dropDead, ConnectionManager.disconnect, hl, List.filter_cons, hx',
            herase]
        · simp [subscribers, lookupR_removeR r sid hnd, List.filter_cons, hx']
      · have hdis : ConnectionManager.disconnect r x sid =
            .ok (updateR r sid (pre ++ xs)) := by
          simp [ConnectionManager.disconnect, hl, hmem, herase, h0]
        have hnd' : ((updateR r sid (pre ++ xs)).map Prod.fst).Nodup := by
          rw [map_fst_updateR]; exact hnd
        have hl' : lookupR (updateR r sid (pre ++ xs)) sid = some (pre ++ xs) :=
          lookupR_updateR r sid (pre ++ xs) _ hl
        obtain ⟨r', hdrop, hsub⟩ := ih pre (updateR r sid (pre ++ xs)) hnd' hl' hp
        refine ⟨r', ?_, ?_⟩
        · simp [List.filter_cons, hx', dropDead, hdis, hdrop]
        · rw [hsub]
          simp [List.filter_append, List.filter_cons, hx']

/-- C8. Broadcasting to a session delivers the message to exactly the
currently-subscribed observers whose send succeeds (judged on the subscriber
list as it was when the broadcast began, so removals take effect only after
the delivery iteration), removes every observer whose send failed from the
session's registry entry, and never lets an exception escape the call. -/
theorem C8_broadcast_best_effort (r : Registry) (sid : String)
    (ok : Conn → Bool) (message : String)
    (hnd : (r.map Prod.fst).Nodup) :
    ∃ r', ConnectionManager.broadcast r sid ok message =
        .ok (r', ((subscribers r sid).filter ok).map fun c => (c, message)) ∧
      subscribers r' sid = (subscribers r sid).filter ok := by
  cases hl : lookupR r sid with
  | none =>
    refine ⟨r, ?_, ?_⟩
    · simp [ConnectionManager.broadcast, hl, subscribers]
    · simp [subscribers, hl]
  | some conns =>
    obtain ⟨r', hdrop, hsub⟩ :=
      dropDead_spec sid ok conns [] r hnd (by simpa using hl) (by simp)
    refine ⟨r', ?_, ?_⟩
    · simp [ConnectionManager.broadcast, hl, hdrop, subscribers]
    · simpa [subscribers, hl] using hsub

/-- Witness for C8: session "s0" has subscribers 1 and 2; the send to 2
fails.  The broadcast returns normally, observer 1 received the message, and
the session's subscriber list shrinks to just observer 1. -/
theorem C8_broadcast_best_effort_witness :
    ConnectionManager.broadcast [("s0", [1, 2])] "s0" (fun c => c == 1) "msg" =
      .ok ([("s0", [1])], [(1, "msg")]) ∧
    subscribers [("s0", [1])] "s0" = [1] := by
  obtain ⟨r', h1, h2⟩ := C8_broadcast_best_effort [("s0", [1, 2])] "s0"
    (fun c => c == 1) "msg" (by decide)
  have hval : ConnectionManager.broadcast [("s0", [1, 2])] "s0"
      (fun c => c == 1) "msg" = .ok ([("s0", [1])], [(1, "msg")]) := rfl
  rw [hval] at h1
  have hr : ([("s0", [1])] : Registry) = r' := congrArg Prod.fst (Except.ok.inj h1)
  rw [← hr] at h2
  exact ⟨hval, h2⟩

/-- C9. Pause and stop are extensionally equal operations on the monitor
object: each clears `is_running` and changes nothing else, and the frame
loop exits immediately whenever the flag was cleared before its while-check,
for a pause exactly as for a stop. -/
theorem C9_pause_stop_equivalent :
    RealtimeMonitor.pause = RealtimeMonitor.stop ∧
    (∀ m : RealtimeMonitor, (RealtimeMonitor.pause m).is_running = false ∧
      (RealtimeMonitor.pause m).current_session_id = m.current_session_id) ∧
    (∀ (env : Env) (fpa : ℤ) (k : ℕ) (st : LoopState),
      env.stopBefore st.frame_number = true →
      monitorLoop env fpa k st = (st, ExitReason.externalStop)) := by
  refine ⟨funext fun m => rfl, fun m => ⟨rfl, rfl⟩, fun env fpa k st hs => ?_⟩
  cases k <;> simp [monitorLoop, hs]

/-- Witness for C9: with the flag cleared, the loop exits at once with the
external-stop reason and an untouched state. -/
theorem C9_pause_stop_equivalent_witness :
    monitorLoop envHalted 2 7 initState = (initState, ExitReason.externalStop) :=
  C9_pause_stop_equivalent.2.2 envHalted 2 7 initState rfl

/-- Counterexample to C4 as stated: with an opened source reporting fps 0,
`duration = total_frames / fps` raises `ZeroDivisionError` after the source
was opened but before the `try`/`finally` is entered, and the decode handle
is not released on that exit path. -/
theorem C4_counterexample :
    (start_monitoring envZeroFps).outcome = MonitorOutcome.zeroFps ∧
    (start_monitoring envZeroFps).released = false := by
  constructor <;> rfl

/-- C4 (amended). For every run that reaches the frame loop (the source
opened and its frame rate is non-zero, so the pre-loop metadata code does
not raise), the decode handle is released before `start_monitoring` returns,
unconditionally: on normal completion, on an external stop, and on the
stride-zero failure inside the loop alike.  Failures raised between opening
the source and entering the `try` (a zero frame rate) escape without
releasing. -/
theorem C4_release_unconditional_in_loop (env : Env)
    (h1 : env.opened = true) (h2 : env.fps ≠ 0) :
    (start_monitoring env).released = true := by
  simp [start_monitoring, h1, h2]

/-- Witness for C4 (amended): the hypotheses hold for `envC4w` and the
handle is released. -/
theorem C4_release_unconditional_in_loop_witness :
    envC4w.opened = true ∧ envC4w.fps ≠ 0 ∧
    (start_monitoring envC4w).released = true :=
  ⟨rfl, by norm_num [envC4w], C4_release_unconditional_in_loop envC4w rfl
    (by norm_num [envC4w])⟩

/-- C7. Clip extraction starts at `max(0, center - before)` seconds (never
before timestamp 0), writes at most `before + after` seconds of frames —
truncating silently when the source ends first — and returns `None` instead
of raising whenever anything in its body fails. -/
theorem C7_extract_clip_bounds (fps : ℚ) (source_frames : ℕ)
    (io_fails : Bool) (c b a : ℚ)
    (hfps : 0 < fps) (hb : 0 ≤ b) (ha : 0 ≤ a) :
    (io_fails = true → extract_clip fps source_frames io_fails c b a = none) ∧
    (∀ res, extract_clip fps source_frames io_fails c b a = some res →
      res.start_time = max 0 (c - b) ∧
      0 ≤ res.start_time ∧
      (res.frames_written : ℚ) / fps ≤ b + a ∧
      res.frames_written ≤ source_frames - res.start_frame) := by
  constructor
  · intro hfail
    simp [extract_clip, hfail]
  · intro res hres
    cases hio : io_fails with
    | true =>
      rw [hio] at hres
      simp [extract_clip] at hres
    | false =>
      subst hio
      rw [extract_clip, if_neg (by simp), Option.some.injEq] at hres
      subst hres
      refine ⟨rfl, le_max_left 0 _, ?_, min_le_right _ _⟩
      have hba : (0 : ℚ) ≤ b + a := by linarith
      have hq : (0 : ℚ) ≤ (b + a) * fps := mul_nonneg hba hfps.le
      have hfloor : (0 : ℤ) ≤ ⌊(b + a) * fps⌋ := Int.floor_nonneg.mpr hq
      have hpy : pyInt ((b + a) * fps) = ⌊(b + a) * fps⌋ := by
        simp [pyInt, hq]
      have hle :
          ((min (pyInt ((b + a) * fps)).toNat
            (source_frames - (pyInt ((max 0 (c - b)) * fps)).toNat) : ℕ) : ℚ) ≤
            (b + a) * fps := by
        calc ((min (pyInt ((b + a) * fps)).toNat
              (source_frames - (pyInt ((max 0 (c - b)) * fps)).toNat) : ℕ) : ℚ)
            ≤ (((pyInt ((b + a) * fps)).toNat : ℕ) : ℚ) := by
              exact_mod_cast Nat.cast_le.mpr (min_le_left _ _)
          _ = ((⌊(b + a) * fps⌋ : ℤ) : ℚ) := by
              rw [hpy]
              exact_mod_cast Int.toNat_of_nonneg hfloor
          _ ≤ (b + a) * fps := Int.floor_le _
      rw [div_le_iff₀ hfps]
      exact hle

/-- Witness for C7: a 100-frame source at 2 fps, a violation centred at 5
seconds with a 15-second window each way: the clip starts at second 0 and
holds 60 frames, i.e. exactly 30 seconds. -/
theorem C7_extract_clip_bounds_witness :
    ((0 : ℚ) = max 0 (5 - 15) ∧ (0 : ℚ) ≤ 0 ∧
      ((60 : ℕ) : ℚ) / 2 ≤ 15 + 15 ∧ (60 : ℕ) ≤ 100 - 0) ∧
    extract_clip 2 100 true 5 15 15 = none := by
  constructor
  · exact (C7_extract_clip_bounds 2 100 false 5 15 15 (by norm_num)
      (by norm_num) (by norm_num)).2 ⟨0, 0, 60⟩
      (by simp only [extract_clip, pyInt]; norm_num; decide)
  · exact (C7_extract_clip_bounds 2 100 true 5 15 15 (by norm_num)
      (by norm_num) (by norm_num)).1 rfl

/-- The pairing loop never touches the frame counter. -/
lemma processPairs_frame_number (env : Env) (ts : ℚ) (obs : List Obs) :
    ∀ (vio : List MappedViolation) (idx : ℕ) (st : LoopState),
      (processPairs env ts obs vio idx st).frame_number = st.frame_number := by
  intro vio
  induction vio with
  | nil => intro idx st; rfl
  | cons v rest ih =>
    intro idx st
    simp only [processPairs]
    cases hg : obs[idx]? with
    | none => rfl
    | some o =>
      simp only []
      split
      · exact ih _ _
      · exact ih _ _

/-- The pairing loop never touches the progress log. -/
lemma processPairs_progress (env : Env) (ts : ℚ) (obs : List Obs) :
    ∀ (vio : List MappedViolation) (idx : ℕ) (st : LoopState),
      (processPairs env ts obs vio idx st).progress = st.progress := by
  intro vio
  induction vio with
  | nil => intro idx st; rfl
  | cons v rest ih =>
    intro idx st
    simp only [processPairs]
    cases hg : obs[idx]? with
    | none => rfl
    | some o =>
      simp only []
      split
      · exact ih _ _
      · exact ih _ _

/-- The per-frame analysis block never touches the frame counter. -/
lemma analyzeSampledFrame_frame_number (env : Env) (ts : ℚ) (st : LoopState) :
    (analyzeSampledFrame env ts st).frame_number = st.frame_number := by
  simp only [analyzeSampledFrame]
  cases env.analyze st.frame_number with
  | raise => rfl
  | ok observations =>
    simp only []
    split
    · rfl
    · cases env.mapViolations observations with
      | raise => rfl
      | ok violations => exact processPairs_frame_number env ts observations violations 0 st

/-- The per-frame analysis block never touches the progress log. -/
lemma analyzeSampledFrame_progress (env : Env) (ts : ℚ) (st : LoopState) :
    (analyzeSampledFrame env ts st).progress = st.progress := by
  simp only [analyzeSampledFrame]
  cases env.analyze st.frame_number with
  | raise => rfl
  | ok observations =>
    simp only []
    split
    · rfl
    · cases env.mapViolations observations with
      | raise => rfl
      | ok violations => exact processPairs_progress env ts observations violations 0 st

/-- One loop iteration advances the frame counter by exactly one. -/
lemma stepState_frame_number (env : Env) (fpa : ℤ) (st : LoopState) :
    (stepState env fpa st).frame_number = st.frame_number + 1 := by
  simp only [stepState]
  split
  · simp [analyzeSampledFrame_frame_number]
  · rfl

/-- One loop iteration appends the frame index to the progress log exactly
when the frame is on the sampling stride. -/
lemma stepState_progress_map (env : Env) (fpa : ℤ) (st : LoopState) :
    (stepState env fpa st).progress.map (fun p => p.2.2) =
      st.progress.map (fun p => p.2.2) ++
        (if (st.frame_number : ℤ) % fpa = 0 then [st.frame_number] else []) := by
  simp only [stepState]
  by_cases hm : (st.frame_number : ℤ) % fpa = 0
  · simp [hm, analyzeSampledFrame_progress]
  · simp [hm]

/-- Characterization of a run that is never paused or stopped: the loop
consumes every frame, exits at end of video, and fires the progress callback
exactly for the frame indices on the sampling stride. -/
lemma monitorLoop_no_stop (env : Env) (fpa : ℤ) (hfpa : ¬ fpa = 0)
    (hstop : ∀ n, env.stopBefore n = false) :
    ∀ (k : ℕ) (st : LoopState),
      (monitorLoop env fpa k st).2 = ExitReason.endOfVideo ∧
      (monitorLoop env fpa k st).1.frame_number = st.frame_number + k ∧
      (monitorLoop env fpa k st).1.progress.map (fun p => p.2.2) =
        st.progress.map (fun p => p.2.2) ++
          (List.range' st.frame_number k).filter
            (fun n : ℕ => decide ((n : ℤ) % fpa = 0)) := by
  intro k
  induction k with
  | zero => intro st; simp [monitorLoop, hstop]
  | succ k ih =>
    intro st
    have hs := hstop st.frame_number
    have hml : monitorLoop env fpa (k + 1) st =
        monitorLoop env fpa k (stepState env fpa st) := by
      simp [monitorLoop, hs, hfpa]
    obtain ⟨ih1, ih2, ih3⟩ := ih (stepState env fpa st)
    rw [hml]
    refine ⟨ih1, ?_, ?_⟩
    · rw [ih2, stepState_frame_number]
      omega
    · rw [ih3, stepState_progress_map, stepState_frame_number, List.range'_succ]
      by_cases hm : (st.frame_number : ℤ) % fpa = 0
      · have hd : fpa ∣ (st.frame_number : ℤ) := Int.dvd_of_emod_eq_zero hm
        simp [hm, List.filter_cons, hd]
      · have hnd : ¬ (fpa ∣ (st.frame_number : ℤ)) :=
          fun hd => hm (Int.emod_eq_zero_of_dvd hd)
        simp [hm, List.filter_cons, hnd]

/-- Characterization of a run that receives a pause or stop request: once
the flag observed at the while-check of frame `j` is cleared, the loop exits
right there with the external-stop reason, having consumed exactly `j`
frames. -/
lemma monitorLoop_stops_at (env : Env) (fpa : ℤ) (hfpa : ¬ fpa = 0) :
    ∀ (k : ℕ) (st : LoopState) (j : ℕ),
      st.frame_number ≤ j → j ≤ st.frame_number + k →
      (∀ n, n < j → env.stopBefore n = false) →
      env.stopBefore j = true →
      (monitorLoop env fpa k st).2 = ExitReason.externalStop ∧
      (monitorLoop env fpa k st).1.frame_number = j := by
  intro k
  induction k with
  | zero =>
    intro st j h1 h2 hlow hj
    have hej : st.frame_number = j := le_antisymm h1 (by simpa using h2)
    constructor <;> simp [monitorLoop, hej, hj]
  | succ k ih =>
    intro st j h1 h2 hlow hj
    by_cases hej : st.frame_number = j
    · constructor <;> simp [monitorLoop, hej, hj]
    · have hlt : st.frame_number < j := lt_of_le_of_ne h1 hej
      have hs : env.stopBefore st.frame_number = false := hlow _ hlt
      have hml : monitorLoop env fpa (k + 1) st =
          monitorLoop env fpa k (stepState env fpa st) := by
        simp [monitorLoop, hs, hfpa]
      rw [hml]
      exact ih (stepState env fpa st) j
        (by rw [stepState_frame_number]; omega)
        (by rw [stepState_frame_number]; omega) hlow hj

/-- A run whose pre-loop code does not raise hands the loop result through
the `finally`. -/
lemma start_monitoring_run (env : Env) (h1 : env.opened = true)
    (h2 : env.fps ≠ 0) :
    start_monitoring env =
      { released := true,
        outcome := exitOutcome (monitorLoop env
          (frames_per_analysis env.fps env.analysis_interval)
          env.total_frames initState).2,
        final := (monitorLoop env
          (frames_per_analysis env.fps env.analysis_interval)
          env.total_frames initState).1 } := by
  rw [start_monitoring, if_neg (by simp [h1]), if_neg h2]

/-- Counterexample to C2 as stated: the code computes the stride with
`int(...)` (truncation) and no clamping, so at 1 fps with a 1.9-second
interval the stride is 1 where `round` clamped to 1 gives 2, and at 0.5 fps
with a 1-second interval the stride is 0 — the value the claim says can
never occur. -/
theorem C2_counterexample :
    frames_per_analysis 1 (19/10) ≠ max 1 (round ((1 : ℚ) * (19/10))) ∧
    frames_per_analysis (1/2) 1 = 0 := by
  constructor
  · norm_num [frames_per_analysis, pyInt, round_eq]
  · norm_num [frames_per_analysis, pyInt]

/-- C2 (amended). The sampling stride equals `⌊fps × interval⌋` (truncation,
which for the non-negative products that occur is the floor), with no
minimum clamp; whenever the stride is at least 1 and the session is never
paused or stopped, the run completes, every frame of the video is consumed,
and the progress callback (and with it the analysis block) fires exactly on
the frame indices that are multiples of the stride. -/
theorem C2_stride_floor_no_clamp (env : Env) (h1 : env.opened = true)
    (h2 : env.fps ≠ 0) (hstop : ∀ n, env.stopBefore n = false)
    (hpos : 1 ≤ frames_per_analysis env.fps env.analysis_interval) :
    frames_per_analysis env.fps env.analysis_interval =
      ⌊env.fps * env.analysis_interval⌋ ∧
    (start_monitoring env).outcome = MonitorOutcome.completed ∧
    (start_monitoring env).final.frame_number = env.total_frames ∧
    (start_monitoring env).final.progress.map (fun p => p.2.2) =
      (List.range env.total_frames).filter
        (fun n : ℕ =>
          decide ((n : ℤ) % frames_per_analysis env.fps env.analysis_interval = 0)) := by
  have hfpa : ¬ frames_per_analysis env.fps env.analysis_interval = 0 := by omega
  have hfloor : frames_per_analysis env.fps env.analysis_interval =
      ⌊env.fps * env.analysis_interval⌋ := by
    by_cases hq : 0 ≤ env.fps * env.analysis_interval
    · simp [frames_per_analysis, pyInt, hq]
    · exfalso
      have hc : frames_per_analysis env.fps env.analysis_interval =
          ⌈env.fps * env.analysis_interval⌉ := by
        simp [frames_per_analysis, pyInt, hq]
      have hle : ⌈env.fps * env.analysis_interval⌉ ≤ 0 := by
        rw [show ((0 : ℤ) : ℤ) = 0 from rfl]
        exact Int.ceil_le.mpr (by exact_mod_cast le_of_not_le hq)
      omega
  obtain ⟨e1, e2, e3⟩ := monitorLoop_no_stop env
    (frames_per_analysis env.fps env.analysis_interval) hfpa hstop
    env.total_frames initState
  rw [start_monitoring_run env h1 h2]
  refine ⟨hfloor, ?_, ?_, ?_⟩
  · rw [e1]; rfl
  · rw [e2]; simp [initState]
  · rw [e3]
    simp [initState, List.range_eq_range']

/-- Witness for C2 (amended): the hypotheses hold for `envC2w` and the run
satisfies the stride characterization. -/
theorem C2_stride_floor_no_clamp_witness :
    frames_per_analysis envC2w.fps envC2w.analysis_interval =
      ⌊envC2w.fps * envC2w.analysis_interval⌋ ∧
    (start_monitoring envC2w).outcome = MonitorOutcome.completed ∧
    (start_monitoring envC2w).final.frame_number = envC2w.total_frames ∧
    (start_monitoring envC2w).final.progress.map (fun p => p.2.2) =
      (List.range envC2w.total_frames).filter
        (fun n : ℕ =>
          decide ((n : ℤ) % frames_per_analysis envC2w.fps envC2w.analysis_interval = 0)) :=
  C2_stride_floor_no_clamp envC2w rfl (by norm_num [envC2w]) (fun n => rfl)
    (by norm_num [envC2w, frames_per_analysis, pyInt])

/-- Evidence for C1 being a code bug: a pause request does not suspend the
session, it terminates it.  With a pause observed before frame 1 of a
4-frame video, the loop exits through the external-stop path after consuming
a single frame, and the `finally` releases the decode handle, ending the
session coroutine; the subsequent resume call merely sets the monitor's
`is_running` flag back to true — no state exists from which the loop could
continue, so processing never reaches the remaining 3 frames. -/
theorem C1_pause_terminates_session :
    (start_monitoring envPause).outcome = MonitorOutcome.stoppedExternally ∧
    (start_monitoring envPause).released = true ∧
    (start_monitoring envPause).final.frame_number = 1 ∧
    envPause.total_frames = 4 ∧
    RealtimeMonitor.resume { is_running := false, current_session_id := some "sess" } =
      { is_running := true, current_session_id := some "sess" } := by
  have hfpa : ¬ frames_per_analysis envPause.fps envPause.analysis_interval = 0 := by
    norm_num [envPause, frames_per_analysis, pyInt]
  obtain ⟨e1, e2⟩ := monitorLoop_stops_at envPause
    (frames_per_analysis envPause.fps envPause.analysis_interval) hfpa
    envPause.total_frames initState 1
    (by norm_num [initState])
    (by norm_num [initState, envPause])
    (by intro n hn; simp only [envPause, decide_eq_false_iff_not]; omega)
    (by simp [envPause])
  rw [start_monitoring_run envPause rfl (by norm_num [envPause])]
  exact ⟨by rw [e1]; rfl, rfl, e2, rfl, rfl⟩

/-- The pairing loop reads only the observation entries at the indices it
visits. -/
lemma processPairs_congr_obs (env : Env) (ts : ℚ) :
    ∀ (vio : List MappedViolation) (obs1 obs2 : List Obs) (idx : ℕ)
      (st : LoopState),
      (∀ j, idx ≤ j → j < idx + vio.length → obs1[j]? = obs2[j]?) →
      processPairs env ts obs1 vio idx st = processPairs env ts obs2 vio idx st := by
  intro vio
  induction vio with
  | nil => intro obs1 obs2 idx st hsame; rfl
  | cons v rest ih =>
    intro obs1 obs2 idx st hsame
    have h0 : obs2[idx]? = obs1[idx]? :=
      (hsame idx le_rfl (by simp)).symm
    simp only [processPairs, h0]
    cases hg : obs1[idx]? with
    | none => rfl
    | some o =>
      simp only []
      split
      · exact ih _ _ _ _ (fun j hj1 hj2 => hsame j (by omega)
          (by simp only [List.length_cons]; omega))
      · exact ih _ _ _ _ (fun j hj1 hj2 => hsame j (by omega)
          (by simp only [List.length_cons]; omega))

/-- When the mapper returns more entries than there are observations, the
pairing loop stops at the first out-of-range index (`IndexError`, caught by
the frame handler): the excess mapper entries are never processed. -/
lemma processPairs_extra_violations (env : Env) (ts : ℚ) (obs : List Obs) :
    ∀ (vio : List MappedViolation) (idx : ℕ) (st : LoopState),
      processPairs env ts obs vio idx st =
        processPairs env ts obs (vio.take (obs.length - idx)) idx st := by
  intro vio
  induction vio with
  | nil => intro idx st; simp [List.take_nil]
  | cons v rest ih =>
    intro idx st
    cases hg : obs[idx]? with
    | none =>
      have hge : obs.length ≤ idx := List.getElem?_eq_none_iff.mp hg
      have h0 : obs.length - idx = 0 := by omega
      rw [h0, List.take_zero]
      simp [processPairs, hg]
    | some o =>
      obtain ⟨hlt, -⟩ := List.getElem?_eq_some_iff.mp hg
      have hsub : obs.length - idx = (obs.length - (idx + 1)) + 1 := by omega
      rw [hsub, List.take_succ_cons]
      simp only [processPairs, hg]
      split
      · exact ih (idx + 1) _
      · exact ih (idx + 1) _

/-- C3 (amended). On a misaligned frame the orchestrator does not route the
unmatched observations through deduplication and alert emission: pairing is
driven by the mapper output, so when the mapper returns fewer entries than
there are observations the tail of observations is dropped entirely (no
ledger entry, no alert), and when it returns more, the excess entries are
cut off by the `IndexError` the per-frame handler catches; in both cases the
frame itself is not failed — the already-processed pairs stand and the loop
moves on. -/
theorem C3_misalignment_drops_unmatched (env : Env) (ts : ℚ) (obs : List Obs)
    (vio : List MappedViolation) (st : LoopState) :
    processPairs env ts obs vio 0 st =
      processPairs env ts (obs.take vio.length) vio 0 st ∧
    processPairs env ts obs vio 0 st =
      processPairs env ts obs (vio.take obs.length) 0 st := by
  constructor
  · exact processPairs_congr_obs env ts vio obs (obs.take vio.length) 0 st
      (fun j hj1 hj2 => (List.getElem?_take_of_lt (by omega)).symm)
  · have h := processPairs_extra_violations env ts obs vio 0 st
    simpa using h

/-- Counterexample to C3 as stated: on a frame with two observations and a
one-element mapper output, the unmatched second observation does not flow
through deduplication or alert emission at all — only one alert is created
and the deduplication ledger holds no entry for the second observation's
key. -/
theorem C3_counterexample :
    (analyzeSampledFrame envC3 0 initState).alerts.length = 1 ∧
    getKey (analyzeSampledFrame envC3 0 initState).dedup.last_seen
      (pyLower "PPE", pyLower "Gate") = none := by
  constructor <;> decide

/-- A list all of whose elements equal a constant is weakly sorted. -/
lemma pairwise_le_of_all_eq (c : ℚ) :
    ∀ (l : List ℚ), (∀ t ∈ l, t = c) → l.Pairwise (· ≤ ·) := by
  intro l
  induction l with
  | nil => intro hall; exact List.Pairwise.nil
  | cons x xs ih =>
    intro hall
    refine List.Pairwise.cons ?_ (ih fun t ht => hall t (List.mem_cons_of_mem x ht))
    intro y hy
    rw [hall x (List.mem_cons_self x xs), hall y (List.mem_cons_of_mem x hy)]

/-- Appending alerts that all share one timestamp no smaller than every
existing timestamp keeps the timestamp list weakly sorted. -/
lemma pairwise_le_append_const (l : List ℚ) (c : ℚ) (extra : List ℚ)
    (hl : l.Pairwise (· ≤ ·)) (hb : ∀ t ∈ l, t ≤ c) (he : ∀ t ∈ extra, t = c) :
    (l ++ extra).Pairwise (· ≤ ·) := by
  rw [List.pairwise_append]
  refine ⟨hl, pairwise_le_of_all_eq c extra he, ?_⟩
  intro a ha b hb'
  rw [he b hb']
  exact hb a ha

/-- Every alert the pairing loop appends carries the frame's timestamp. -/
lemma processPairs_alerts (env : Env) (ts : ℚ) (obs : List Obs) :
    ∀ (vio : List MappedViolation) (idx : ℕ) (st : LoopState),
      ∃ extra, (processPairs env ts obs vio idx st).alerts = st.alerts ++ extra ∧
        ∀ a ∈ extra, a.timestamp = ts := by
  intro vio
  induction vio with
  | nil => intro idx st; exact ⟨[], by simp [processPairs], by simp⟩
  | cons v rest ih =>
    intro idx st
    simp only [processPairs]
    cases hg : obs[idx]? with
    | none => exact ⟨[], by simp, by simp⟩
    | some o =>
      simp only []
      split
      · obtain ⟨extra, he, ht⟩ := ih (idx + 1) _
        refine ⟨{ violation_id := env.session_id ++ "_" ++
                    toString (st.violations_detected + 1),
                  session_id := env.session_id, timestamp := ts,
                  frame_number := st.frame_number,
                  hazard_type := o.hazard_type.getD "Unknown",
                  severity := v.severity.getD "MEDIUM",
                  observation := o.observation.getD "",
                  location := o.location.getD "Unknown location",
                  osha_code := v.osha_code, osha_title := v.osha_title,
                  plain_english := v.plain_english,
                  video_clip_path := env.clipResult (st.violations_detected + 1) }
                :: extra, ?_, ?_⟩
        · rw [he]
          simp
        · intro a ha
          rcases List.mem_cons.mp ha with h | h
          · rw [h]
          · exact ht a h
      · obtain ⟨extra, he, ht⟩ := ih (idx + 1) _
        exact ⟨extra, he, ht⟩

/-- Every alert the analysis block appends carries the frame's timestamp. -/
lemma analyzeSampledFrame_alerts (env : Env) (ts : ℚ) (st : LoopState) :
    ∃ extra, (analyzeSampledFrame env ts st).alerts = st.alerts ++ extra ∧
      ∀ a ∈ extra, a.timestamp = ts := by
  simp only [analyzeSampledFrame]
  cases env.analyze st.frame_number with
  | raise => exact ⟨[], by simp, by simp⟩
  | ok observations =>
    simp only []
    split
    · exact ⟨[], by simp, by simp⟩
    · cases env.mapViolations observations with
      | raise => exact ⟨[], by simp, by simp⟩
      | ok violations => exact processPairs_alerts env ts observations violations 0 st

/-- Every alert one loop iteration appends carries the consumed frame's
timestamp. -/
lemma stepState_alerts (env : Env) (fpa : ℤ) (st : LoopState) :
    ∃ extra, (stepState env fpa st).alerts = st.alerts ++ extra ∧
      ∀ a ∈ extra, a.timestamp = (st.frame_number : ℚ) / env.fps := by
  simp only [stepState]
  split
  · obtain ⟨extra, he, ht⟩ := analyzeSampledFrame_alerts env
      ((st.frame_number : ℚ) / env.fps)
      { st with analysis_count := st.analysis_count + 1,
                progress := st.progress ++
                  [((st.frame_number : ℚ) / env.fps,
                    (env.total_frames : ℚ) / env.fps, st.frame_number)] }
    exact ⟨extra, by simpa using he, ht⟩
  · exact ⟨[], by simp, by simp⟩

/-- With a positive frame rate, the loop keeps the emitted alerts' timestamps
weakly sorted: all alerts of one sampled frame share its timestamp, and later
frames have larger timestamps. -/
lemma monitorLoop_alerts_pairwise (env : Env) (fpa : ℤ) (hfps : 0 < env.fps) :
    ∀ (k : ℕ) (st : LoopState),
      ((st.alerts.map fun a => a.timestamp).Pairwise (· ≤ ·)) →
      (∀ a ∈ st.alerts, a.timestamp ≤ (st.frame_number : ℚ) / env.fps) →
      (((monitorLoop env fpa k st).1.alerts.map fun a => a.timestamp).Pairwise
        (· ≤ ·)) := by
  intro k
  induction k with
  | zero =>
    intro st hp hb
    have h0 : (monitorLoop env fpa 0 st).1 = st := by
      rw [monitorLoop]; split <;> rfl
    rw [h0]; exact hp
  | succ k ih =>
    intro st hp hb
    by_cases hs : env.stopBefore st.frame_number = true
    · have h0 : (monitorLoop env fpa (k + 1) st).1 = st := by
        simp [monitorLoop, hs]
      rw [h0]; exact hp
    · have hs' : env.stopBefore st.frame_number = false := by
        simpa using hs
      by_cases hz : fpa = 0
      · have h0 : (monitorLoop env fpa (k + 1) st).1 = st := by
          simp [monitorLoop, hs', hz]
        rw [h0]; exact hp
      · have hml : monitorLoop env fpa (k + 1) st =
            monitorLoop env fpa k (stepState env fpa st) := by
          simp [monitorLoop, hs', hz]
        rw [hml]
        obtain ⟨extra, he, ht⟩ := stepState_alerts env fpa st
        have hmono : (st.frame_number : ℚ) / env.fps ≤
            ((st.frame_number + 1 : ℕ) : ℚ) / env.fps := by
          apply div_le_div_of_nonneg_right ?_ hfps.le
          push_cast
          linarith
        apply ih (stepState env fpa st)
        · rw [he, List.map_append]
          exact pairwise_le_append_const _ ((st.frame_number : ℚ) / env.fps) _
            hp (by intro t htm
                   obtain ⟨a, ha, rfl⟩ := List.mem_map.mp htm
                   exact hb a ha)
            (by intro t htm
                obtain ⟨a, ha, rfl⟩ := List.mem_map.mp htm
                exact ht a ha)
        · intro a ha
          rw [stepState_frame_number]
          rw [he] at ha
          rcases List.mem_append.mp ha with h | h
          · exact le_trans (hb a h) hmono
          · rw [ht a h]
            exact hmono

/-- C6 (amended). Within one monitoring session the video timestamps of the
accepted alerts, in emission order, are non-decreasing — not strictly
increasing, because all alerts raised on one sampled frame share that frame's
timestamp; only alerts from distinct frames are strictly ordered. -/
theorem C6_alert_timestamps_nondecreasing (env : Env) (hfps : 0 < env.fps) :
    ((start_monitoring env).final.alerts.map fun a => a.timestamp).Pairwise
      (· ≤ ·) := by
  by_cases h1 : env.opened = true
  · rw [start_monitoring_run env h1 (ne_of_gt hfps)]
    apply monitorLoop_alerts_pairwise env _ hfps env.total_frames initState
    · simp [initState]
    · simp [initState]
  · have h1' : env.opened = false := by
      simpa using h1
    rw [start_monitoring, if_pos h1']
    simp [initState]

/-- Witness for C6 (amended) at `envC6w`. -/
theorem C6_alert_timestamps_nondecreasing_witness :
    (0 : ℚ) < envC6w.fps ∧
    ((start_monitoring envC6w).final.alerts.map fun a => a.timestamp).Pairwise
      (· ≤ ·) :=
  ⟨by norm_num [envC6w],
   C6_alert_timestamps_nondecreasing envC6w (by norm_num [envC6w])⟩

/-- Counterexample to C6 as stated: a single sampled frame carrying two
distinct accepted violations emits two alerts with the same video timestamp,
so the emission-order timestamp sequence is not strictly increasing. -/
theorem C6_counterexample :
    (start_monitoring envC6).final.alerts.length = 2 ∧
    ¬ (((start_monitoring envC6).final.alerts.map fun a => a.timestamp).Pairwise
        (· < ·)) := by
  have hfpa : frames_per_analysis envC6.fps envC6.analysis_interval = 1 := by
    norm_num [envC6, frames_per_analysis, pyInt]
  have hne : ¬ (pyLower "Fall Hazard" = pyLower "PPE") := by decide
  have hrun := start_monitoring_run envC6 rfl (by norm_num [envC6])
  rw [hrun, hfpa]
  have htf : envC6.total_frames = 1 := rfl
  rw [htf]
  constructor
  · norm_num [monitorLoop, stepState, analyzeSampledFrame, processPairs,
      should_alert, getKey, setKey, initState, envC6, obsA, obsB, vioA, hne]
  · norm_num [monitorLoop, stepState, analyzeSampledFrame, processPairs,
      should_alert, getKey, setKey, initState, envC6, obsA, obsB, vioA, hne,
      List.pairwise_cons]

